import Mathlib

/-!
Verification of the kima-print repository: the `usePrint` React hook whose single
operation `handlePrint(contentRef, type, options)` clones a DOM subtree into a
hidden iframe, injects print styles for the chosen format, triggers the native
print dialog, and resolves a `PrintResult`.

Shallow embedding. DOM elements carry their inner markup as a string. The
platform (browser) is an oracle `Platform` saying whether the try-guarded
prelude throws, whether the iframe document/window handles are obtainable, and
whether `iframeWindow.print()` succeeds. The asynchronous part is a state
machine: the synchronous body of `handlePrint` (`phase1`) builds an initial
state, and the racing callbacks (timeout timer, `onload`, `onerror`, the
delayed grace cleanup scheduled after a successful print) are handlers applied
to the state as an externally chosen event list is delivered. Handler guards
encode the platform semantics the code relies on: a cleared or fired timer
never runs its callback again, a removed iframe delivers no load or error
events, handlers not yet installed never run, and the grace cleanup runs only
if it was scheduled. Callbacks supplied by the caller are observers recorded in
an ordered trace together with iframe creation/removal and promise resolution.
A synchronous throw inside the `new Promise` executor (which the surrounding
try/catch cannot see, so the returned promise rejects) is recorded in the
`rejected` flag.
-/

/-- PrintType from the source: the format selector. -/
inductive PrintType
  | a4
  | thermal
deriving Repr, DecidableEq

/-- String form of the format selector, as the TS union values. -/
def typeStr : PrintType → String
  | .a4 => "a4"
  | .thermal => "thermal"

/-- JavaScript String.prototype.toUpperCase for the ASCII strings used here. -/
def jsToUpper (s : String) : String := String.mk (s.data.map Char.toUpper)

/-- PrintResult from the source. The TS field `error?: string` (absent on the
success path) is an `Option`. -/
structure PrintResult where
  success : Bool
  error : Option String
  message : String
deriving Repr, DecidableEq

/-- PrintOptions from the source. The three callbacks are modelled by presence
flags (they are notification observers recorded in the trace); `timeout?` is
optional and defaults to 5000 at the destructuring site. -/
structure PrintOptions where
  hasOnSuccess : Bool
  hasOnError : Bool
  hasOnStart : Bool
  timeout : Option Nat
deriving Repr, DecidableEq

/-- DOM element: what the orchestrator reads from it is its inner markup. -/
structure Element where
  innerHTML : String
deriving Repr, DecidableEq

/-- The first argument of handlePrint:
`RefObject<HTMLElement> | HTMLElement | null`. A React ref holds
`current : HTMLElement | null`. -/
inductive ContentRef
  | null
  | elem (e : Element)
  | ref (current : Option Element)
deriving Repr, DecidableEq

/-- Result of the element-resolution expression. `refSelf` is the case where
the expression evaluates to the ref object itself (a truthy non-element). -/
inductive Resolved
  | noElem
  | elem (e : Element)
  | refSelf
deriving Repr, DecidableEq

/-- The source expression
`contentRef && ((contentRef as RefObject<HTMLElement>).current || (contentRef as HTMLElement))`.
A null argument is falsy, so the whole expression is null. For a plain element,
`.current` is undefined (falsy) and the `||` yields the element itself. For a
ref with a live element, `.current` is that element. For a ref whose `current`
is null, `.current` is falsy and the `||` falls back to the ref object itself,
which is truthy but is not an element. -/
def resolveContent : ContentRef → Resolved
  | .null => .noElem
  | .elem e => .elem e
  | .ref (some e) => .elem e
  | .ref none => .refSelf

/-- Platform oracle for one call: whether the try-guarded synchronous prelude
throws (the only caller-visible throw site there is the `onStart` callback),
the string form of that thrown value, whether
`iframe.contentDocument || iframe.contentWindow?.document` is obtainable,
whether `iframe.contentWindow` is obtainable, whether
`iframeWindow.print()` returns normally, and the string form of the value it
throws otherwise. -/
structure Platform where
  startThrows : Bool
  startErr : String
  docAvailable : Bool
  windowAvailable : Bool
  printOk : Bool
  printErr : String
deriving Repr, DecidableEq

/-- Racing external events delivered to one in-flight call: the timeout timer
firing, the iframe load signal, an iframe error signal carrying the error value
string, and the grace-delay cleanup timer scheduled after a successful print. -/
inductive Ev
  | timeout
  | load
  | loadError (err : String)
  | graceCleanup
deriving Repr, DecidableEq

/-- Observable trace items, in order of occurrence: caller callbacks firing,
the staging iframe being appended/removed, and the promise resolution that
takes effect. -/
inductive TraceEv
  | cbStart
  | cbSuccess (msg : String)
  | cbError (msg : String)
  | iframeCreated
  | iframeRemoved
  | resolvedWith (r : PrintResult)
deriving Repr, DecidableEq

/-- State of one call: whether the staging iframe is attached to the document,
whether the timeout timer is armed, whether the onload/onerror handlers were
installed, whether the post-success grace cleanup is scheduled, the resolved
value of the promise (first resolve wins), whether the promise was rejected by
a synchronous executor throw, how many times the iframe node was actually
removed, the inner markup of the caller-owned original element as held by the
host document, the markup written into the staging document, and the trace. -/
structure S where
  attached : Bool
  timerArmed : Bool
  handlersInstalled : Bool
  graceScheduled : Bool
  resolvedVal : Option PrintResult
  rejected : Bool
  removals : Nat
  origHTML : String
  stagedDoc : Option String
  trace : List TraceEv
deriving Repr, DecidableEq

/-- Initial state of a call before anything happened. -/
def initS : S :=
  { attached := false, timerArmed := false, handlersInstalled := false
    graceScheduled := false, resolvedVal := none, rejected := false
    removals := 0, origHTML := "", stagedDoc := none, trace := [] }

/-- Message of the content-not-found failure. -/
def notFoundMsg : String := "Elemento para impressão não encontrado!"

/-- Message when the iframe document handle is unobtainable. -/
def docMsg : String := "Não foi possível acessar o documento do iframe"

/-- Message when the iframe window handle is unobtainable. -/
def winMsg : String := "Não foi possível acessar a janela do iframe"

/-- Message of the timeout failure; embeds the effective timeout value. -/
def timeoutMsg (t : Nat) : String :=
  "Timeout: Impressão não foi concluída em " ++ toString t ++ "ms"

/-- Message of the success resolution; embeds the uppercased format name. -/
def successMsg (ty : PrintType) : String :=
  "Documento " ++ jsToUpper (typeStr ty) ++ " enviado para impressão com sucesso!"

/-- Message when `iframeWindow.print()` throws. -/
def printErrMsg (e : String) : String := "Erro ao executar impressão: " ++ e

/-- Message of the iframe load-error failure. -/
def iframeErrMsg (e : String) : String := "Erro no iframe: " ++ e

/-- Message of the catch-all unexpected-error failure. -/
def unexpectedMsg (e : String) : String := "Erro inesperado: " ++ e

/-- Failure results in the source all have the shape
`{ success: false, error: msg, message: msg }`. -/
def errResult (m : String) : PrintResult :=
  { success := false, error := some m, message := m }

/-- Success result from the onload handler: no `error` field. -/
def successResult (ty : PrintType) : PrintResult :=
  { success := true, error := none, message := successMsg ty }

/-- Inline CSS applied to the staging iframe node itself. -/
def iframeCss : String :=
  "position: fixed; right: 0; bottom: 0; width: 0; height: 0; border: 0; visibility: hidden;"

/-- Print stylesheet for the A4 format (whitespace of the template literal
elided; literal braces written as escapes). -/
def printStylesA4 : String :=
  "<style> @media print \x7b @page \x7b size: A4; margin: 10px; \x7d " ++
  "body \x7b margin: 0 !important; width: 210mm; min-height: 297mm; font-size: 12pt; " ++
  "-webkit-print-color-adjust: exact; \x7d \x7d " ++
  "@page \x7b margin: 0 20px; \x7d body \x7b margin: 0; \x7d " ++
  ".thermal-table \x7b width: 100%; border-collapse: collapse; \x7d </style>"

/-- Print stylesheet for the thermal format (whitespace elided; literal braces
written as escapes). -/
def printStylesThermal : String :=
  "<style> @media print \x7b @page \x7b size: 80mm auto; margin: 10px; margin-top: 5mm; \x7d " ++
  "body \x7b margin: 0 !important; width: 80mm !important; max-width: 80mm !important; " ++
  "font-size: 10pt; -webkit-print-color-adjust: exact; \x7d " ++
  "* \x7b box-sizing: border-box; \x7d " ++
  ".thermal-content \x7b padding: 2mm; white-space: pre-wrap; \x7d " ++
  "table \x7b width: 100% !important; table-layout: fixed; \x7d " ++
  "td, th \x7b padding: 2px !important; word-break: break-word; \x7d " ++
  ".no-print \x7b display: none !important; \x7d " ++
  ".break-before \x7b page-break-before: always; \x7d " ++
  ".break-after \x7b page-break-after: always; \x7d </style>"

/-- Stylesheet selection on the format: `if (type === 'a4') ... else ...`. -/
def printStyles : PrintType → String
  | .a4 => printStylesA4
  | .thermal => printStylesThermal

/-- Markup written into the staging document (whitespace of the template
literal elided): the style block, a fixed title, and the inner markup of the
content clone as the body. -/
def pageHTML (styles body : String) : String :=
  "<html><head>" ++ styles ++ "<title>Documento Impresso</title></head><body>" ++
  body ++ "</body></html>"

/-- contentClone = element.cloneNode(true): a deep copy for a real element. A
ref object that reached this call (its `current` being null) has no such
method, so the call throws; the throw is modelled as `none`. -/
def cloneNodeDeep : Resolved → Option Element
  | .elem e => some e
  | _ => none

/-- Invocation of the onStart callback, when provided. -/
def fireStart (opts : PrintOptions) (s : S) : S :=
  if opts.hasOnStart then { s with trace := s.trace ++ [.cbStart] } else s

/-- Invocation of the onSuccess callback, when provided. -/
def fireSuccess (opts : PrintOptions) (m : String) (s : S) : S :=
  if opts.hasOnSuccess then { s with trace := s.trace ++ [.cbSuccess m] } else s

/-- Invocation of the onError callback, when provided. -/
def fireError (opts : PrintOptions) (m : String) (s : S) : S :=
  if opts.hasOnError then { s with trace := s.trace ++ [.cbError m] } else s

/-- The cleanup closure of the source: remove the iframe only if it is still
contained in the document body, so removal is idempotent. -/
def cleanup (s : S) : S :=
  if s.attached then
    { s with attached := false, removals := s.removals + 1
             trace := s.trace ++ [.iframeRemoved] }
  else s

/-- Calling `resolve r` on the promise: only the first call takes effect. -/
def resolveP (r : PrintResult) (s : S) : S :=
  match s.resolvedVal with
  | some _ => s
  | none => { s with resolvedVal := some r, trace := s.trace ++ [.resolvedWith r] }

/-- The timeout timer callback: cleanup, warn, onError, resolve a timeout
failure embedding the effective timeout. The guard models setTimeout
semantics: a cleared or already fired timer does not run. -/
def timeoutFire (opts : PrintOptions) (s : S) : S :=
  if s.timerArmed then
    let s := { s with timerArmed := false }
    let s := cleanup s
    let m := timeoutMsg (opts.timeout.getD 5000)
    resolveP (errResult m) (fireError opts m s)
  else s

/-- The `iframeWindow.onload` handler: focus and trigger the print. On success:
onSuccess, clear the timer, schedule cleanup after the 1000ms grace delay,
resolve success. If `print()` throws: clear the timer, cleanup now, onError,
resolve a trigger failure. The guard models that the handler exists and that a
removed iframe delivers no events. -/
def onloadFire (pe : Platform) (opts : PrintOptions) (ty : PrintType) (s : S) : S :=
  if s.handlersInstalled && s.attached then
    if pe.printOk then
      let m := successMsg ty
      let s := fireSuccess opts m s
      let s := { s with timerArmed := false }
      let s := { s with graceScheduled := true }
      resolveP (successResult ty) s
    else
      let s := { s with timerArmed := false }
      let s := cleanup s
      let m := printErrMsg pe.printErr
      resolveP (errResult m) (fireError opts m s)
  else s

/-- The `iframeWindow.onerror` handler: clear the timer, cleanup, onError,
resolve a load failure. Same guard as onload. -/
def onerrorFire (er : String) (opts : PrintOptions) (s : S) : S :=
  if s.handlersInstalled && s.attached then
    let s := { s with timerArmed := false }
    let s := cleanup s
    let m := iframeErrMsg er
    resolveP (errResult m) (fireError opts m s)
  else s

/-- The grace-delay cleanup scheduled by `setTimeout(cleanup, 1000)` on the
success path: runs only if it was scheduled. -/
def graceFire (s : S) : S :=
  if s.graceScheduled then cleanup { s with graceScheduled := false } else s

/-- Delivery of one external event to the call state. -/
def step (pe : Platform) (opts : PrintOptions) (ty : PrintType) (s : S) : Ev → S
  | .timeout => timeoutFire opts s
  | .load => onloadFire pe opts ty s
  | .loadError er => onerrorFire er opts s
  | .graceCleanup => graceFire s

/-- Executor body after the staging iframe has been created and appended:
cloneNode (which throws for a non-element, rejecting the promise since an
executor throw is invisible to the outer try/catch), stylesheet selection,
timer arming, document-handle check, document write, window-handle check,
handler installation. -/
def stagePart (r : Resolved) (ty : PrintType) (opts : PrintOptions) (pe : Platform) (s : S) : S :=
  match cloneNodeDeep r with
  | none => { s with rejected := true }
  | some c =>
    let styles := printStyles ty
    let s := { s with timerArmed := true }
    if !pe.docAvailable then
      let s := { s with timerArmed := false }
      let s := cleanup s
      resolveP (errResult docMsg) (fireError opts docMsg s)
    else
      let s := { s with stagedDoc := some (pageHTML styles c.innerHTML) }
      if !pe.windowAvailable then
        let s := { s with timerArmed := false }
        let s := cleanup s
        resolveP (errResult winMsg) (fireError opts winMsg s)
      else
        { s with handlersInstalled := true }

/-- Body of the `new Promise` executor together with the preceding try-guarded
prelude, for a truthy resolved content value `r`: onStart (which may throw into
the catch block, producing the unexpected-error resolution), iframe creation
and append, then the staging continuation. -/
def rvHTML : Resolved → String
  | .elem e => e.innerHTML
  | _ => ""

def afterValidate (r : Resolved) (ty : PrintType) (opts : PrintOptions) (pe : Platform) : S :=
  let s0 : S := { initS with origHTML := rvHTML r }
  let s := fireStart opts s0
  if opts.hasOnStart && pe.startThrows then
    let m := unexpectedMsg pe.startErr
    resolveP (errResult m) (fireError opts m s)
  else
    stagePart r ty opts pe
      { s with attached := true, trace := s.trace ++ [TraceEv.iframeCreated] }

/-- Synchronous part of handlePrint: resolve the content reference; if it is
falsy, log, onError, and return the not-found failure (the async function
resolves with the returned value); otherwise run the guarded prelude and the
executor body. -/
def phase1 (cr : ContentRef) (ty : PrintType) (opts : PrintOptions) (pe : Platform) : S :=
  match resolveContent cr with
  | .noElem => resolveP (errResult notFoundMsg) (fireError opts notFoundMsg initS)
  | r => afterValidate r ty opts pe

/-- Complete model of one handlePrint call: the synchronous part followed by
the delivery of the externally chosen event list. -/
def handlePrint (cr : ContentRef) (ty : PrintType) (opts : PrintOptions)
    (pe : Platform) (evts : List Ev) : S :=
  evts.foldl (step pe opts ty) (phase1 cr ty opts pe)

/-- Trace contributed by the onStart invocation. -/
def startTrace (opts : PrintOptions) : List TraceEv :=
  if opts.hasOnStart then [.cbStart] else []

/-- State right after handler installation on the fully staged path. -/
def readyS (e : Element) (ty : PrintType) (opts : PrintOptions) : S :=
  { attached := true, timerArmed := true, handlersInstalled := true
    graceScheduled := false, resolvedVal := none, rejected := false
    removals := 0, origHTML := e.innerHTML
    stagedDoc := some (pageHTML (printStyles ty) e.innerHTML)
    trace := startTrace opts ++ [TraceEv.iframeCreated] }

/-- Sample content element used for concrete runs. -/
def sampleElem : Element := { innerHTML := "<p>conteúdo</p>" }

/-- Platform with no faults. -/
def okPlatform : Platform :=
  { startThrows := false, startErr := "", docAvailable := true
    windowAvailable := true, printOk := true, printErr := "" }

/-- Options with no callbacks and the default timeout. -/
def quietOpts : PrintOptions :=
  { hasOnSuccess := false, hasOnError := false, hasOnStart := false, timeout := none }

/-- Options with all callbacks provided and the default timeout. -/
def loudOpts : PrintOptions :=
  { hasOnSuccess := true, hasOnError := true, hasOnStart := true, timeout := none }

/-! Helper equations and invariant machinery. -/

theorem fireStart_eq (opts : PrintOptions) (s : S) :
    fireStart opts s =
      { s with trace := s.trace ++ if opts.hasOnStart then [TraceEv.cbStart] else [] } := by
  unfold fireStart
  split <;> simp_all

theorem fireSuccess_eq (opts : PrintOptions) (m : String) (s : S) :
    fireSuccess opts m s =
      { s with trace := s.trace ++ if opts.hasOnSuccess then [TraceEv.cbSuccess m] else [] } := by
  unfold fireSuccess
  split <;> simp_all

theorem fireError_eq (opts : PrintOptions) (m : String) (s : S) :
    fireError opts m s =
      { s with trace := s.trace ++ if opts.hasOnError then [TraceEv.cbError m] else [] } := by
  unfold fireError
  split <;> simp_all

theorem cleanup_eq (s : S) :
    cleanup s =
      { s with attached := false
               removals := if s.attached then s.removals + 1 else s.removals
               trace := s.trace ++ if s.attached then [TraceEv.iframeRemoved] else [] } := by
  cases s
  unfold cleanup
  split <;> simp_all

theorem resolveP_of_some (r r' : PrintResult) (s : S) (h : s.resolvedVal = some r') :
    resolveP r s = s := by
  unfold resolveP
  rw [h]

theorem resolveP_of_none (r : PrintResult) (s : S) (h : s.resolvedVal = none) :
    resolveP r s =
      { s with resolvedVal := some r, trace := s.trace ++ [TraceEv.resolvedWith r] } := by
  unfold resolveP
  rw [h]

theorem resolveP_resolvedVal (r : PrintResult) (s : S) :
    (resolveP r s).resolvedVal = some (s.resolvedVal.getD r) := by
  unfold resolveP
  cases h : s.resolvedVal <;> simp [h]

theorem resolveP_attached (r : PrintResult) (s : S) :
    (resolveP r s).attached = s.attached := by
  unfold resolveP
  cases h : s.resolvedVal <;> simp [h]

theorem resolveP_timerArmed (r : PrintResult) (s : S) :
    (resolveP r s).timerArmed = s.timerArmed := by
  unfold resolveP
  cases h : s.resolvedVal <;> simp [h]

theorem resolveP_handlersInstalled (r : PrintResult) (s : S) :
    (resolveP r s).handlersInstalled = s.handlersInstalled := by
  unfold resolveP
  cases h : s.resolvedVal <;> simp [h]

theorem resolveP_graceScheduled (r : PrintResult) (s : S) :
    (resolveP r s).graceScheduled = s.graceScheduled := by
  unfold resolveP
  cases h : s.resolvedVal <;> simp [h]

theorem resolveP_removals (r : PrintResult) (s : S) :
    (resolveP r s).removals = s.removals := by
  unfold resolveP
  cases h : s.resolvedVal <;> simp [h]

theorem resolveP_origHTML (r : PrintResult) (s : S) :
    (resolveP r s).origHTML = s.origHTML := by
  unfold resolveP
  cases h : s.resolvedVal <;> simp [h]

theorem resolveP_stagedDoc (r : PrintResult) (s : S) :
    (resolveP r s).stagedDoc = s.stagedDoc := by
  unfold resolveP
  cases h : s.resolvedVal <;> simp [h]

theorem resolveP_rejected (r : PrintResult) (s : S) :
    (resolveP r s).rejected = s.rejected := by
  unfold resolveP
  cases h : s.resolvedVal <;> simp [h]

theorem string_append_length (a b : String) :
    (a ++ b).length = a.length + b.length := by
  show (a ++ b).data.length = a.data.length + b.data.length
  rw [String.data_append, List.length_append]

theorem string_append_ne_empty (a b : String) (h : a.length ≠ 0) : a ++ b ≠ "" := by
  intro he
  have hl : (a ++ b).length = 0 := by rw [he]; decide
  rw [string_append_length] at hl
  omega

theorem timeoutMsg_ne (t : Nat) : timeoutMsg t ≠ "" := by
  unfold timeoutMsg
  apply string_append_ne_empty
  rw [string_append_length]
  have h : ("Timeout: Impressão não foi concluída em " : String).length ≠ 0 := by decide
  omega

theorem printErrMsg_ne (e : String) : printErrMsg e ≠ "" := by
  unfold printErrMsg
  apply string_append_ne_empty
  decide

theorem iframeErrMsg_ne (e : String) : iframeErrMsg e ≠ "" := by
  unfold iframeErrMsg
  apply string_append_ne_empty
  decide

theorem unexpectedMsg_ne (e : String) : unexpectedMsg e ≠ "" := by
  unfold unexpectedMsg
  apply string_append_ne_empty
  decide

/-! Invariants over reachable states. -/

/-- Shape invariant of every result the code can resolve: success results carry
no error field, failure results carry a non-empty error equal to the message. -/
def Good (r : PrintResult) : Prop :=
  (r.success = true → r.error = none) ∧
  (r.success = false → r.error = some r.message ∧ r.message ≠ "")

/-- All resolved values of a state satisfy `Good`. -/
def GoodS (s : S) : Prop := ∀ r, s.resolvedVal = some r → Good r

theorem good_errResult (m : String) (hm : m ≠ "") : Good (errResult m) := by
  constructor
  · intro h
    simp [errResult] at h
  · intro _
    exact ⟨rfl, hm⟩

theorem good_successResult (ty : PrintType) : Good (successResult ty) := by
  constructor
  · intro _
    rfl
  · intro h
    simp [successResult] at h

theorem goodS_of_resolvedVal_eq (s t : S) (h : t.resolvedVal = s.resolvedVal)
    (hs : GoodS s) : GoodS t :=
  fun r hr => hs r (h ▸ hr)

theorem goodS_of_none (s : S) (h : s.resolvedVal = none) : GoodS s := by
  intro r hr
  rw [h] at hr
  cases hr

theorem goodS_resolveP (r : PrintResult) (s : S) (hs : GoodS s) (hr : Good r) :
    GoodS (resolveP r s) := by
  unfold resolveP
  cases h : s.resolvedVal with
  | some v => exact hs
  | none =>
    intro r' hr'
    have h2 : some r = some r' := hr'
    cases h2
    exact hr

theorem goodS_step (pe : Platform) (opts : PrintOptions) (ty : PrintType)
    (s : S) (ev : Ev) (hs : GoodS s) : GoodS (step pe opts ty s ev) := by
  cases ev
  case timeout =>
    simp only [step, timeoutFire]
    by_cases ht : s.timerArmed = true <;> simp only [ht, if_true, if_false]
    · apply goodS_resolveP
      · apply goodS_of_resolvedVal_eq s _ _ hs
        simp [fireError_eq, cleanup_eq]
      · exact good_errResult _ (timeoutMsg_ne _)
    · simpa [ht] using hs
  case load =>
    simp only [step, onloadFire]
    by_cases hg : (s.handlersInstalled && s.attached) = true
    · simp only [hg, if_true]
      by_cases hp : pe.printOk = true <;> simp only [hp, if_true, if_false]
      · apply goodS_resolveP
        · apply goodS_of_resolvedVal_eq s _ _ hs
          simp [fireSuccess_eq]
        · exact good_successResult ty
      · apply goodS_resolveP
        · apply goodS_of_resolvedVal_eq s _ _ hs
          simp [fireError_eq, cleanup_eq]
        · exact good_errResult _ (printErrMsg_ne _)
    · simpa [hg] using hs
  case loadError er =>
    simp only [step, onerrorFire]
    by_cases hg : (s.handlersInstalled && s.attached) = true <;>
      simp only [hg, if_true, if_false]
    · apply goodS_resolveP
      · apply goodS_of_resolvedVal_eq s _ _ hs
        simp [fireError_eq, cleanup_eq]
      · exact good_errResult _ (iframeErrMsg_ne _)
    · simpa [hg] using hs
  case graceCleanup =>
    simp only [step, graceFire]
    by_cases hg : s.graceScheduled = true <;> simp only [hg, if_true, if_false]
    · apply goodS_of_resolvedVal_eq s _ _ hs
      simp [cleanup_eq]
    · simpa [hg] using hs

theorem goodS_foldl (pe : Platform) (opts : PrintOptions) (ty : PrintType)
    (evts : List Ev) (s : S) (hs : GoodS s) :
    GoodS (List.foldl (step pe opts ty) s evts) := by
  induction evts generalizing s with
  | nil => exact hs
  | cons ev rest ih => exact ih _ (goodS_step pe opts ty s ev hs)

theorem goodS_stagePart (r : Resolved) (ty : PrintType) (opts : PrintOptions)
    (pe : Platform) (s : S) (hs : GoodS s) : GoodS (stagePart r ty opts pe s) := by
  unfold stagePart
  cases hcl : cloneNodeDeep r with
  | none =>
    apply goodS_of_resolvedVal_eq s _ _ hs
    rfl
  | some c =>
    by_cases hd : pe.docAvailable = true <;> simp only [hd, Bool.not_true, Bool.not_false, if_true, if_false]
    · by_cases hw : pe.windowAvailable = true <;> simp only [hw, Bool.not_true, Bool.not_false, if_true, if_false]
      · apply goodS_of_resolvedVal_eq s _ _ hs
        rfl
      · apply goodS_resolveP
        · apply goodS_of_resolvedVal_eq s _ _ hs
          simp [fireError_eq, cleanup_eq]
        · exact good_errResult _ (by decide)
    · apply goodS_resolveP
      · apply goodS_of_resolvedVal_eq s _ _ hs
        simp [fireError_eq, cleanup_eq]
      · exact good_errResult _ (by decide)

theorem goodS_afterValidate (r : Resolved) (ty : PrintType) (opts : PrintOptions)
    (pe : Platform) : GoodS (afterValidate r ty opts pe) := by
  unfold afterValidate
  by_cases hst : (opts.hasOnStart && pe.startThrows) = true <;>
    simp only [hst, if_true, if_false]
  · apply goodS_resolveP
    · apply goodS_of_none
      simp [fireError_eq, fireStart_eq, initS]
    · exact good_errResult _ (unexpectedMsg_ne _)
  · apply goodS_stagePart
    apply goodS_of_none
    simp [fireStart_eq, initS]

theorem goodS_phase1 (cr : ContentRef) (ty : PrintType) (opts : PrintOptions)
    (pe : Platform) : GoodS (phase1 cr ty opts pe) := by
  unfold phase1
  cases hres : resolveContent cr with
  | noElem =>
    apply goodS_resolveP
    · apply goodS_of_none
      simp [fireError_eq, initS]
    · exact good_errResult _ (by decide)
  | elem e => exact goodS_afterValidate _ _ _ _
  | refSelf => exact goodS_afterValidate _ _ _ _

theorem goodS_handlePrint (cr : ContentRef) (ty : PrintType) (opts : PrintOptions)
    (pe : Platform) (evts : List Ev) : GoodS (handlePrint cr ty opts pe evts) :=
  goodS_foldl pe opts ty evts _ (goodS_phase1 cr ty opts pe)

/-! Resolution stability, inert states, removal counting, frame fields. -/

theorem step_resolved_stable (pe : Platform) (opts : PrintOptions) (ty : PrintType)
    (s : S) (ev : Ev) (r : PrintResult) (h : s.resolvedVal = some r) :
    (step pe opts ty s ev).resolvedVal = some r := by
  cases ev
  case timeout =>
    simp only [step, timeoutFire]
    by_cases ht : s.timerArmed = true <;>
      simp [ht, resolveP_resolvedVal, fireError_eq, cleanup_eq, h]
  case load =>
    simp only [step, onloadFire]
    by_cases hg : (s.handlersInstalled && s.attached) = true
    · by_cases hp : pe.printOk = true <;>
        simp [hg, hp, resolveP_resolvedVal, fireSuccess_eq, fireError_eq, cleanup_eq, h]
    · simp [hg, h]
  case loadError er =>
    simp only [step, onerrorFire]
    by_cases hg : (s.handlersInstalled && s.attached) = true <;>
      simp [hg, resolveP_resolvedVal, fireError_eq, cleanup_eq, h]
  case graceCleanup =>
    simp only [step, graceFire]
    by_cases hg : s.graceScheduled = true <;> simp [hg, cleanup_eq, h]

theorem foldl_resolved_stable (pe : Platform) (opts : PrintOptions) (ty : PrintType)
    (evts : List Ev) (s : S) (r : PrintResult) (h : s.resolvedVal = some r) :
    (List.foldl (step pe opts ty) s evts).resolvedVal = some r := by
  induction evts generalizing s with
  | nil => exact h
  | cons ev rest ih => exact ih _ (step_resolved_stable pe opts ty s ev r h)

/-- States in which every further event is a no-op: the timer is cleared or
fired, no grace cleanup is pending, and the iframe is either already removed or
never got its handlers. -/
def Dead (s : S) : Prop :=
  s.timerArmed = false ∧ s.graceScheduled = false ∧
    (s.attached = false ∨ s.handlersInstalled = false)

theorem step_dead (pe : Platform) (opts : PrintOptions) (ty : PrintType)
    (s : S) (ev : Ev) (h : Dead s) : step pe opts ty s ev = s := by
  obtain ⟨h1, h2, h3⟩ := h
  cases ev
  case timeout => simp [step, timeoutFire, h1]
  case load =>
    rcases h3 with h3 | h3 <;> simp [step, onloadFire, h3]
  case loadError er =>
    rcases h3 with h3 | h3 <;> simp [step, onerrorFire, h3]
  case graceCleanup => simp [step, graceFire, h2]

theorem foldl_dead (pe : Platform) (opts : PrintOptions) (ty : PrintType)
    (evts : List Ev) (s : S) (h : Dead s) :
    List.foldl (step pe opts ty) s evts = s := by
  induction evts with
  | nil => rfl
  | cons ev rest ih => rw [List.foldl_cons, step_dead pe opts ty s ev h, ih]

/-- Removal-count invariant: while the iframe is attached nothing was removed
yet, and overall at most one removal ever happens. -/
def RInv (s : S) : Prop := (s.attached = true → s.removals = 0) ∧ s.removals ≤ 1

theorem rinv_of_fields (s t : S) (hatt : t.attached = s.attached)
    (hrem : t.removals = s.removals) (h : RInv s) : RInv t := by
  unfold RInv at *
  rw [hatt, hrem]
  exact h

theorem rinv_cleanup (s : S) (h : RInv s) : RInv (cleanup s) := by
  obtain ⟨h1, h2⟩ := h
  rw [cleanup_eq]
  constructor
  · intro hc
    simp at hc
  · by_cases ha : s.attached = true
    · simp [ha]
      have := h1 ha
      omega
    · simp [ha]
      exact h2

theorem rinv_step (pe : Platform) (opts : PrintOptions) (ty : PrintType)
    (s : S) (ev : Ev) (h : RInv s) : RInv (step pe opts ty s ev) := by
  cases ev
  case timeout =>
    simp only [step, timeoutFire]
    by_cases ht : s.timerArmed = true <;> simp only [ht, if_true, if_false]
    · apply rinv_of_fields (cleanup { s with timerArmed := false }) _ ?_ ?_
        (rinv_cleanup _ (rinv_of_fields s _ rfl rfl h))
      · simp [resolveP_attached, fireError_eq]
      · simp [resolveP_removals, fireError_eq]
    · exact h
  case load =>
    simp only [step, onloadFire]
    by_cases hg : (s.handlersInstalled && s.attached) = true
    · simp only [hg, if_true]
      by_cases hp : pe.printOk = true <;> simp only [hp, if_true, if_false]
      · apply rinv_of_fields s _ ?_ ?_ h
        · simp [resolveP_attached, fireSuccess_eq]
        · simp [resolveP_removals, fireSuccess_eq]
      · apply rinv_of_fields (cleanup { s with timerArmed := false }) _ ?_ ?_
          (rinv_cleanup _ (rinv_of_fields s _ rfl rfl h))
        · simp [resolveP_attached, fireError_eq]
        · simp [resolveP_removals, fireError_eq]
    · simp only [hg, if_false]
      exact h
  case loadError er =>
    simp only [step, onerrorFire]
    by_cases hg : (s.handlersInstalled && s.attached) = true <;>
      simp only [hg, if_true, if_false]
    · apply rinv_of_fields (cleanup { s with timerArmed := false }) _ ?_ ?_
        (rinv_cleanup _ (rinv_of_fields s _ rfl rfl h))
      · simp [resolveP_attached, fireError_eq]
      · simp [resolveP_removals, fireError_eq]
    · exact h
  case graceCleanup =>
    simp only [step, graceFire]
    by_cases hg : s.graceScheduled = true <;> simp only [hg, if_true, if_false]
    · exact rinv_cleanup _ (rinv_of_fields s _ rfl rfl h)
    · exact h

theorem rinv_foldl (pe : Platform) (opts : PrintOptions) (ty : PrintType)
    (evts : List Ev) (s : S) (h : RInv s) :
    RInv (List.foldl (step pe opts ty) s evts) := by
  induction evts generalizing s with
  | nil => exact h
  | cons ev rest ih => exact ih _ (rinv_step pe opts ty s ev h)

theorem step_origHTML (pe : Platform) (opts : PrintOptions) (ty : PrintType)
    (s : S) (ev : Ev) : (step pe opts ty s ev).origHTML = s.origHTML := by
  cases ev <;> simp only [step, timeoutFire, onloadFire, onerrorFire, graceFire] <;>
    (repeat' split) <;>
    simp [resolveP_origHTML, fireError_eq, fireSuccess_eq, cleanup_eq]

theorem step_stagedDoc (pe : Platform) (opts : PrintOptions) (ty : PrintType)
    (s : S) (ev : Ev) : (step pe opts ty s ev).stagedDoc = s.stagedDoc := by
  cases ev <;> simp only [step, timeoutFire, onloadFire, onerrorFire, graceFire] <;>
    (repeat' split) <;>
    simp [resolveP_stagedDoc, fireError_eq, fireSuccess_eq, cleanup_eq]

theorem foldl_origHTML (pe : Platform) (opts : PrintOptions) (ty : PrintType)
    (evts : List Ev) (s : S) :
    (List.foldl (step pe opts ty) s evts).origHTML = s.origHTML := by
  induction evts generalizing s with
  | nil => rfl
  | cons ev rest ih => rw [List.foldl_cons, ih, step_origHTML]

theorem foldl_stagedDoc (pe : Platform) (opts : PrintOptions) (ty : PrintType)
    (evts : List Ev) (s : S) :
    (List.foldl (step pe opts ty) s evts).stagedDoc = s.stagedDoc := by
  induction evts generalizing s with
  | nil => rfl
  | cons ev rest ih => rw [List.foldl_cons, ih, step_stagedDoc]

/-! Trace extension: everything after the prelude only appends trace entries,
and never appends a start-callback or an iframe-creation entry. -/

/-- The trace of `t` extends the trace of `s` by entries that contain no
`cbStart` and no `iframeCreated`. -/
def TrExt (s t : S) : Prop :=
  ∃ d, t.trace = s.trace ++ d ∧
    d.count TraceEv.cbStart = 0 ∧ d.count TraceEv.iframeCreated = 0

theorem ext_rfl (s : S) : TrExt s s := ⟨[], by simp⟩

theorem ext_trans (s t u : S) (h1 : TrExt s t) (h2 : TrExt t u) : TrExt s u := by
  obtain ⟨d1, e1, c1, f1⟩ := h1
  obtain ⟨d2, e2, c2, f2⟩ := h2
  refine ⟨d1 ++ d2, ?_, ?_, ?_⟩
  · rw [e2, e1, List.append_assoc]
  · simp [List.count_append, c1, c2]
  · simp [List.count_append, f1, f2]

theorem ext_of_trace_eq (s t : S) (h : t.trace = s.trace) : TrExt s t :=
  ⟨[], by simp [h]⟩

theorem ext_cleanup (s : S) : TrExt s (cleanup s) := by
  rw [cleanup_eq]
  refine ⟨_, rfl, ?_, ?_⟩ <;> by_cases h : s.attached = true <;>
    simp [h, List.count_eq_zero]

theorem ext_fireError (opts : PrintOptions) (m : String) (s : S) :
    TrExt s (fireError opts m s) := by
  rw [fireError_eq]
  refine ⟨_, rfl, ?_, ?_⟩ <;> by_cases h : opts.hasOnError = true <;>
    simp [h, List.count_eq_zero]

theorem ext_fireSuccess (opts : PrintOptions) (m : String) (s : S) :
    TrExt s (fireSuccess opts m s) := by
  rw [fireSuccess_eq]
  refine ⟨_, rfl, ?_, ?_⟩ <;> by_cases h : opts.hasOnSuccess = true <;>
    simp [h, List.count_eq_zero]

theorem ext_resolveP (r : PrintResult) (s : S) : TrExt s (resolveP r s) := by
  unfold resolveP
  cases h : s.resolvedVal with
  | none => exact ⟨[TraceEv.resolvedWith r], rfl, by simp [List.count_eq_zero], by simp [List.count_eq_zero]⟩
  | some v => exact ext_rfl s

theorem ext_step (pe : Platform) (opts : PrintOptions) (ty : PrintType)
    (s : S) (ev : Ev) : TrExt s (step pe opts ty s ev) := by
  cases ev
  case timeout =>
    simp only [step, timeoutFire]
    by_cases ht : s.timerArmed = true <;> simp only [ht, if_true, if_false]
    · exact ext_trans _ _ _
        (ext_trans _ _ _
          (ext_trans _ _ _ (ext_of_trace_eq s { s with timerArmed := false } rfl)
            (ext_cleanup _))
          (ext_fireError _ _ _))
        (ext_resolveP _ _)
    · exact ext_rfl s
  case load =>
    simp only [step, onloadFire]
    by_cases hg : (s.handlersInstalled && s.attached) = true
    · simp only [hg, if_true]
      by_cases hp : pe.printOk = true <;> simp only [hp, if_true, if_false]
      · exact ext_trans _ _ _
          (ext_trans _ _ _ (ext_fireSuccess _ _ _)
            (ext_of_trace_eq _ _ rfl))
          (ext_resolveP _ _)
      · exact ext_trans _ _ _
          (ext_trans _ _ _
            (ext_trans _ _ _ (ext_of_trace_eq s { s with timerArmed := false } rfl)
              (ext_cleanup _))
            (ext_fireError _ _ _))
          (ext_resolveP _ _)
    · simp only [hg, if_false]
      exact ext_rfl s
  case loadError er =>
    simp only [step, onerrorFire]
    by_cases hg : (s.handlersInstalled && s.attached) = true <;>
      simp only [hg, if_true, if_false]
    · exact ext_trans _ _ _
        (ext_trans _ _ _
          (ext_trans _ _ _ (ext_of_trace_eq s { s with timerArmed := false } rfl)
            (ext_cleanup _))
          (ext_fireError _ _ _))
        (ext_resolveP _ _)
    · exact ext_rfl s
  case graceCleanup =>
    simp only [step, graceFire]
    by_cases hg : s.graceScheduled = true <;> simp only [hg, if_true, if_false]
    · exact ext_trans _ _ _
        (ext_of_trace_eq s { s with graceScheduled := false } rfl) (ext_cleanup _)
    · exact ext_rfl s

theorem ext_foldl (pe : Platform) (opts : PrintOptions) (ty : PrintType)
    (evts : List Ev) (s : S) : TrExt s (List.foldl (step pe opts ty) s evts) := by
  induction evts generalizing s with
  | nil => exact ext_rfl s
  | cons ev rest ih =>
    exact ext_trans _ _ _ (ext_step pe opts ty s ev) (ih _)

theorem ext_stagePart (r : Resolved) (ty : PrintType) (opts : PrintOptions)
    (pe : Platform) (s : S) : TrExt s (stagePart r ty opts pe s) := by
  unfold stagePart
  cases hcl : cloneNodeDeep r with
  | none => exact ext_of_trace_eq _ _ rfl
  | some c =>
    cases hd : pe.docAvailable <;> simp only [hd, Bool.not_true, Bool.not_false, if_true, if_false]
    · refine ext_trans _ _ _ ?_ (ext_resolveP _ _)
      refine ext_trans _ _ _ ?_ (ext_fireError _ _ _)
      refine ext_trans _ _ _ ?_ (ext_cleanup _)
      exact ext_of_trace_eq _ _ rfl
    · cases hw : pe.windowAvailable <;> simp only [hw, Bool.not_true, Bool.not_false, if_true, if_false]
      · refine ext_trans _ _ _ ?_ (ext_resolveP _ _)
        refine ext_trans _ _ _ ?_ (ext_fireError _ _ _)
        refine ext_trans _ _ _ ?_ (ext_cleanup _)
        exact ext_of_trace_eq _ _ rfl
      · exact ext_of_trace_eq _ _ rfl

/-! Characterization of the synchronous part and of single racing steps. -/

theorem phase1_elem_eq (cr : ContentRef) (ty : PrintType) (opts : PrintOptions)
    (pe : Platform) (e : Element) (he : resolveContent cr = .elem e) :
    phase1 cr ty opts pe = afterValidate (Resolved.elem e) ty opts pe := by
  unfold phase1
  rw [he]

theorem phase1_refSelf_eq (cr : ContentRef) (ty : PrintType) (opts : PrintOptions)
    (pe : Platform) (he : resolveContent cr = .refSelf) :
    phase1 cr ty opts pe = afterValidate Resolved.refSelf ty opts pe := by
  unfold phase1
  rw [he]

/-- Terminal state of the content-not-found path. -/
def noElemEndS (opts : PrintOptions) : S :=
  { initS with
    resolvedVal := some (errResult notFoundMsg)
    trace := (if opts.hasOnError then [TraceEv.cbError notFoundMsg] else []) ++
      [TraceEv.resolvedWith (errResult notFoundMsg)] }

theorem phase1_noElem_eq (cr : ContentRef) (ty : PrintType) (opts : PrintOptions)
    (pe : Platform) (he : resolveContent cr = .noElem) :
    phase1 cr ty opts pe = noElemEndS opts := by
  unfold phase1
  rw [he]
  show resolveP (errResult notFoundMsg) (fireError opts notFoundMsg initS) = noElemEndS opts
  simp [fireError_eq, resolveP, initS, noElemEndS]

theorem dead_noElemEndS (opts : PrintOptions) : Dead (noElemEndS opts) :=
  ⟨rfl, rfl, Or.inl rfl⟩

theorem handlePrint_noElem (cr : ContentRef) (ty : PrintType) (opts : PrintOptions)
    (pe : Platform) (evts : List Ev) (he : resolveContent cr = .noElem) :
    handlePrint cr ty opts pe evts = noElemEndS opts := by
  unfold handlePrint
  rw [phase1_noElem_eq cr ty opts pe he]
  exact foldl_dead pe opts ty evts _ (dead_noElemEndS opts)

theorem phase1_staged (cr : ContentRef) (ty : PrintType) (opts : PrintOptions)
    (pe : Platform) (e : Element)
    (he : resolveContent cr = .elem e)
    (hs : (opts.hasOnStart && pe.startThrows) = false)
    (hd : pe.docAvailable = true) (hw : pe.windowAvailable = true) :
    phase1 cr ty opts pe = readyS e ty opts := by
  rw [phase1_elem_eq cr ty opts pe e he]
  unfold afterValidate stagePart
  simp [hs, hd, hw, cloneNodeDeep, rvHTML, fireStart_eq, initS, readyS, startTrace]

/-- Terminal state after the timeout fires first on the fully staged path. -/
def timeoutEndS (e : Element) (ty : PrintType) (opts : PrintOptions) : S :=
  { attached := false, timerArmed := false, handlersInstalled := true
    graceScheduled := false
    resolvedVal := some (errResult (timeoutMsg (opts.timeout.getD 5000)))
    rejected := false, removals := 1, origHTML := e.innerHTML
    stagedDoc := some (pageHTML (printStyles ty) e.innerHTML)
    trace := (startTrace opts ++ [TraceEv.iframeCreated]) ++ [TraceEv.iframeRemoved] ++
      (if opts.hasOnError then [TraceEv.cbError (timeoutMsg (opts.timeout.getD 5000))] else []) ++
      [TraceEv.resolvedWith (errResult (timeoutMsg (opts.timeout.getD 5000)))] }

theorem step_timeout_readyS (pe : Platform) (opts : PrintOptions) (ty : PrintType)
    (e : Element) :
    step pe opts ty (readyS e ty opts) Ev.timeout = timeoutEndS e ty opts := by
  simp [step, timeoutFire, readyS, cleanup_eq, fireError_eq, resolveP, timeoutEndS]

theorem dead_timeoutEndS (e : Element) (ty : PrintType) (opts : PrintOptions) :
    Dead (timeoutEndS e ty opts) :=
  ⟨rfl, rfl, Or.inl rfl⟩

theorem handlePrint_timeout_first (cr : ContentRef) (ty : PrintType)
    (opts : PrintOptions) (pe : Platform) (e : Element) (rest : List Ev)
    (he : resolveContent cr = .elem e)
    (hs : (opts.hasOnStart && pe.startThrows) = false)
    (hd : pe.docAvailable = true) (hw : pe.windowAvailable = true) :
    handlePrint cr ty opts pe (Ev.timeout :: rest) = timeoutEndS e ty opts := by
  unfold handlePrint
  rw [phase1_staged cr ty opts pe e he hs hd hw, List.foldl_cons, step_timeout_readyS]
  exact foldl_dead pe opts ty rest _ (dead_timeoutEndS e ty opts)

/-- Terminal state after a load error fires first on the fully staged path. -/
def loadErrEndS (e : Element) (ty : PrintType) (opts : PrintOptions) (er : String) : S :=
  { attached := false, timerArmed := false, handlersInstalled := true
    graceScheduled := false
    resolvedVal := some (errResult (iframeErrMsg er))
    rejected := false, removals := 1, origHTML := e.innerHTML
    stagedDoc := some (pageHTML (printStyles ty) e.innerHTML)
    trace := (startTrace opts ++ [TraceEv.iframeCreated]) ++ [TraceEv.iframeRemoved] ++
      (if opts.hasOnError then [TraceEv.cbError (iframeErrMsg er)] else []) ++
      [TraceEv.resolvedWith (errResult (iframeErrMsg er))] }

theorem step_loadError_readyS (pe : Platform) (opts : PrintOptions) (ty : PrintType)
    (e : Element) (er : String) :
    step pe opts ty (readyS e ty opts) (Ev.loadError er) = loadErrEndS e ty opts er := by
  simp [step, onerrorFire, readyS, cleanup_eq, fireError_eq, resolveP, loadErrEndS]

theorem dead_loadErrEndS (e : Element) (ty : PrintType) (opts : PrintOptions)
    (er : String) : Dead (loadErrEndS e ty opts er) :=
  ⟨rfl, rfl, Or.inl rfl⟩

theorem handlePrint_loadError_first (cr : ContentRef) (ty : PrintType)
    (opts : PrintOptions) (pe : Platform) (e : Element) (er : String) (rest : List Ev)
    (he : resolveContent cr = .elem e)
    (hs : (opts.hasOnStart && pe.startThrows) = false)
    (hd : pe.docAvailable = true) (hw : pe.windowAvailable = true) :
    handlePrint cr ty opts pe (Ev.loadError er :: rest) = loadErrEndS e ty opts er := by
  unfold handlePrint
  rw [phase1_staged cr ty opts pe e he hs hd hw, List.foldl_cons, step_loadError_readyS]
  exact foldl_dead pe opts ty rest _ (dead_loadErrEndS e ty opts er)

/-- State right after the load signal fires first and the print trigger
succeeds: resolved with the success result, grace cleanup scheduled. -/
def successStepS (e : Element) (ty : PrintType) (opts : PrintOptions) : S :=
  { attached := true, timerArmed := false, handlersInstalled := true
    graceScheduled := true
    resolvedVal := some (successResult ty)
    rejected := false, removals := 0, origHTML := e.innerHTML
    stagedDoc := some (pageHTML (printStyles ty) e.innerHTML)
    trace := (startTrace opts ++ [TraceEv.iframeCreated]) ++
      (if opts.hasOnSuccess then [TraceEv.cbSuccess (successMsg ty)] else []) ++
      [TraceEv.resolvedWith (successResult ty)] }

theorem step_load_readyS (pe : Platform) (opts : PrintOptions) (ty : PrintType)
    (e : Element) (hp : pe.printOk = true) :
    step pe opts ty (readyS e ty opts) Ev.load = successStepS e ty opts := by
  simp [step, onloadFire, readyS, hp, fireSuccess_eq, resolveP, successStepS]

theorem afterValidate_frame (ty : PrintType) (opts : PrintOptions) (pe : Platform)
    (e : Element) :
    (afterValidate (Resolved.elem e) ty opts pe).origHTML = e.innerHTML ∧
      ((afterValidate (Resolved.elem e) ty opts pe).stagedDoc = none ∨
        (afterValidate (Resolved.elem e) ty opts pe).stagedDoc =
          some (pageHTML (printStyles ty) e.innerHTML)) := by
  unfold afterValidate stagePart
  by_cases hst : (opts.hasOnStart && pe.startThrows) = true <;>
    simp only [hst, if_true, if_false]
  · constructor
    · simp [resolveP_origHTML, fireError_eq, fireStart_eq, initS, rvHTML]
    · left
      simp [resolveP_stagedDoc, fireError_eq, fireStart_eq, initS]
  · simp only [cloneNodeDeep]
    cases hd : pe.docAvailable <;>
      simp only [hd, Bool.not_true, Bool.not_false, if_true, if_false]
    · constructor
      · simp [resolveP_origHTML, fireError_eq, cleanup_eq, fireStart_eq, initS, rvHTML]
      · left
        simp [resolveP_stagedDoc, fireError_eq, cleanup_eq, fireStart_eq, initS]
    · cases hw : pe.windowAvailable <;>
        simp only [hw, Bool.not_true, Bool.not_false, if_true, if_false]
      · constructor
        · simp [resolveP_origHTML, fireError_eq, cleanup_eq, fireStart_eq, initS, rvHTML]
        · right
          simp [resolveP_stagedDoc, fireError_eq, cleanup_eq, fireStart_eq, initS]
      · constructor
        · simp [fireStart_eq, initS, rvHTML]
        · right
          simp [fireStart_eq, initS]

theorem rinv_resolveP (r : PrintResult) (s : S) (h : RInv s) : RInv (resolveP r s) :=
  rinv_of_fields s _ (resolveP_attached r s) (resolveP_removals r s) h

theorem rinv_fireError (opts : PrintOptions) (m : String) (s : S) (h : RInv s) :
    RInv (fireError opts m s) :=
  rinv_of_fields s _ (by simp [fireError_eq]) (by simp [fireError_eq]) h

theorem rinv_stagePart (r : Resolved) (ty : PrintType) (opts : PrintOptions)
    (pe : Platform) (s : S) (h : RInv s) : RInv (stagePart r ty opts pe s) := by
  unfold stagePart
  cases hcl : cloneNodeDeep r with
  | none => exact rinv_of_fields s _ rfl rfl h
  | some c =>
    cases hd : pe.docAvailable <;>
      simp only [hd, Bool.not_true, Bool.not_false, if_true, if_false]
    · exact rinv_resolveP _ _ (rinv_fireError _ _ _
        (rinv_cleanup _ (rinv_of_fields s _ rfl rfl h)))
    · cases hw : pe.windowAvailable <;>
        simp only [hw, Bool.not_true, Bool.not_false, if_true, if_false]
      · exact rinv_resolveP _ _ (rinv_fireError _ _ _
          (rinv_cleanup _ (rinv_of_fields s _ rfl rfl h)))
      · exact rinv_of_fields s _ rfl rfl h

theorem rinv_afterValidate (r : Resolved) (ty : PrintType) (opts : PrintOptions)
    (pe : Platform) : RInv (afterValidate r ty opts pe) := by
  unfold afterValidate
  by_cases hst : (opts.hasOnStart && pe.startThrows) = true <;>
    simp only [hst, if_true, if_false]
  · refine rinv_resolveP _ _ (rinv_fireError _ _ _ ?_)
    constructor
    · intro hc
      simp [fireStart_eq, initS] at hc
    · simp [fireStart_eq, initS]
  · apply rinv_stagePart
    constructor
    · intro _
      simp [fireStart_eq, initS]
    · simp [fireStart_eq, initS]

theorem rinv_phase1 (cr : ContentRef) (ty : PrintType) (opts : PrintOptions)
    (pe : Platform) : RInv (phase1 cr ty opts pe) := by
  cases hres : resolveContent cr with
  | noElem =>
    rw [phase1_noElem_eq cr ty opts pe hres]
    constructor
    · intro hc
      simp [noElemEndS, initS] at hc
    · simp [noElemEndS, initS]
  | elem e =>
    rw [phase1_elem_eq cr ty opts pe e hres]
    exact rinv_afterValidate _ _ _ _
  | refSelf =>
    rw [phase1_refSelf_eq cr ty opts pe hres]
    exact rinv_afterValidate _ _ _ _


/-- Terminal state of the catch-all path when the try-guarded prelude throws. -/
def throwEndS (rv : Resolved) (opts : PrintOptions) (pe : Platform) : S :=
  { initS with
    origHTML := rvHTML rv
    resolvedVal := some (errResult (unexpectedMsg pe.startErr))
    trace := [TraceEv.cbStart] ++
      (if opts.hasOnError then [TraceEv.cbError (unexpectedMsg pe.startErr)] else []) ++
      [TraceEv.resolvedWith (errResult (unexpectedMsg pe.startErr))] }

theorem afterValidate_throw_eq (rv : Resolved) (ty : PrintType) (opts : PrintOptions)
    (pe : Platform) (hOS : opts.hasOnStart = true) (hst : pe.startThrows = true) :
    afterValidate rv ty opts pe = throwEndS rv opts pe := by
  unfold afterValidate
  simp [hOS, hst, fireStart_eq, fireError_eq, resolveP, initS, throwEndS]

theorem dead_throwEndS (rv : Resolved) (opts : PrintOptions) (pe : Platform) :
    Dead (throwEndS rv opts pe) :=
  ⟨rfl, rfl, Or.inl rfl⟩

/-- State right after iframe creation, before the staging continuation. -/
def attachS (rv : Resolved) (opts : PrintOptions) : S :=
  { initS with
    origHTML := rvHTML rv
    attached := true
    trace := startTrace opts ++ [TraceEv.iframeCreated] }

theorem afterValidate_no_throw (rv : Resolved) (ty : PrintType) (opts : PrintOptions)
    (pe : Platform) (hst : (opts.hasOnStart && pe.startThrows) = false) :
    afterValidate rv ty opts pe = stagePart rv ty opts pe (attachS rv opts) := by
  unfold afterValidate
  simp only [hst, Bool.false_eq_true, if_false]
  congr 1
  cases hOS : opts.hasOnStart <;>
    simp [fireStart_eq, initS, attachS, startTrace, hOS]

theorem onStart_before_created (rv : Resolved) (ty : PrintType) (opts : PrintOptions)
    (pe : Platform) (evts : List Ev) (hOS : opts.hasOnStart = true)
    (hin : TraceEv.iframeCreated ∈
      (List.foldl (step pe opts ty) (afterValidate rv ty opts pe) evts).trace) :
    ∃ suf, (List.foldl (step pe opts ty) (afterValidate rv ty opts pe) evts).trace =
      TraceEv.cbStart :: TraceEv.iframeCreated :: suf ∧
      suf.count TraceEv.cbStart = 0 := by
  by_cases hst : pe.startThrows = true
  · rw [afterValidate_throw_eq rv ty opts pe hOS hst,
      foldl_dead pe opts ty evts _ (dead_throwEndS rv opts pe)] at hin
    exfalso
    revert hin
    by_cases hOE : opts.hasOnError = true <;> simp [throwEndS, initS, hOE]
  · have hst2 : pe.startThrows = false := by
      cases hv : pe.startThrows
      · rfl
      · exact absurd hv hst
    have hand : (opts.hasOnStart && pe.startThrows) = false := by
      rw [hst2, Bool.and_false]
    rw [afterValidate_no_throw rv ty opts pe hand]
    obtain ⟨d, hd2, hc, _⟩ := ext_trans _ _ _
      (ext_stagePart rv ty opts pe (attachS rv opts)) (ext_foldl pe opts ty evts _)
    refine ⟨d, ?_, hc⟩
    rw [hd2]
    simp [attachS, initS, startTrace, hOS]

/-- Terminal state after the load signal fires first and the print trigger
throws on the fully staged path: the catch block clears the timer, removes the
iframe, fires onError, and resolves the trigger failure. -/
def printErrEndS (e : Element) (ty : PrintType) (opts : PrintOptions) (pe : Platform) : S :=
  { attached := false, timerArmed := false, handlersInstalled := true
    graceScheduled := false
    resolvedVal := some (errResult (printErrMsg pe.printErr))
    rejected := false, removals := 1, origHTML := e.innerHTML
    stagedDoc := some (pageHTML (printStyles ty) e.innerHTML)
    trace := (startTrace opts ++ [TraceEv.iframeCreated]) ++ [TraceEv.iframeRemoved] ++
      (if opts.hasOnError then [TraceEv.cbError (printErrMsg pe.printErr)] else []) ++
      [TraceEv.resolvedWith (errResult (printErrMsg pe.printErr))] }

theorem step_load_readyS_printThrows (pe : Platform) (opts : PrintOptions)
    (ty : PrintType) (e : Element) (hp : pe.printOk = false) :
    step pe opts ty (readyS e ty opts) Ev.load = printErrEndS e ty opts pe := by
  simp [step, onloadFire, readyS, hp, cleanup_eq, fireError_eq, resolveP, printErrEndS]

theorem dead_printErrEndS (e : Element) (ty : PrintType) (opts : PrintOptions)
    (pe : Platform) : Dead (printErrEndS e ty opts pe) :=
  ⟨rfl, rfl, Or.inl rfl⟩

theorem handlePrint_trigger_error_first (cr : ContentRef) (ty : PrintType)
    (opts : PrintOptions) (pe : Platform) (e : Element) (rest : List Ev)
    (he : resolveContent cr = .elem e)
    (hs : (opts.hasOnStart && pe.startThrows) = false)
    (hd : pe.docAvailable = true) (hw : pe.windowAvailable = true)
    (hp : pe.printOk = false) :
    handlePrint cr ty opts pe (Ev.load :: rest) = printErrEndS e ty opts pe := by
  unfold handlePrint
  rw [phase1_staged cr ty opts pe e he hs hd hw, List.foldl_cons,
    step_load_readyS_printThrows pe opts ty e hp]
  exact foldl_dead pe opts ty rest _ (dead_printErrEndS e ty opts pe)

theorem timeout_noop_of_unarmed (pe : Platform) (opts : PrintOptions) (ty : PrintType)
    (s : S) (h : s.timerArmed = false) : step pe opts ty s Ev.timeout = s := by
  simp [step, timeoutFire, h]

theorem step_timer_stays_unarmed (pe : Platform) (opts : PrintOptions) (ty : PrintType)
    (s : S) (ev : Ev) (h : s.timerArmed = false) :
    (step pe opts ty s ev).timerArmed = false := by
  cases ev <;> simp only [step, timeoutFire, onloadFire, onerrorFire, graceFire] <;>
    (repeat' split) <;>
    simp_all [resolveP_timerArmed, fireError_eq, fireSuccess_eq, cleanup_eq]

theorem foldl_timeout_noop (pe : Platform) (opts : PrintOptions) (ty : PrintType)
    (rest1 rest2 : List Ev) (s : S) (h : s.timerArmed = false) :
    List.foldl (step pe opts ty) s (rest1 ++ Ev.timeout :: rest2) =
      List.foldl (step pe opts ty) s (rest1 ++ rest2) := by
  induction rest1 generalizing s with
  | nil =>
    simp only [List.nil_append, List.foldl_cons]
    rw [timeout_noop_of_unarmed pe opts ty s h]
  | cons ev rest ih =>
    simp only [List.cons_append, List.foldl_cons]
    exact ih (step pe opts ty s ev) (step_timer_stays_unarmed pe opts ty s ev h)

/-! Claim theorems. -/

/-- Options used to exhibit the racing-callback behavior: success and error
callbacks provided, no start callback. -/
def raceOpts : PrintOptions :=
  { hasOnSuccess := true, hasOnError := true, hasOnStart := false, timeout := none }

/-- Claim C1 (code bug at this input): for a React ref whose `current` is null,
the element-resolution fallback yields the ref object itself, validation
passes, and `cloneNode` throws inside the promise executor — the returned
promise rejects instead of resolving, so handlePrint is not total. This run
shows the rejection with no resolution taking effect. -/
theorem C1_ref_null_current_rejects :
    (handlePrint (ContentRef.ref none) PrintType.a4 quietOpts okPlatform []).rejected = true ∧
    (handlePrint (ContentRef.ref none) PrintType.a4 quietOpts okPlatform []).resolvedVal = none := by
  decide

/-- Claim C2 (code bug at this input): on the same null-current-ref input the
staging iframe is appended before `cloneNode` throws and the timeout timer is
never armed, so no exit path ever removes the iframe: it stays attached with
zero removals no matter which events are delivered later. -/
theorem C2_staging_iframe_leaked :
    (handlePrint (ContentRef.ref none) PrintType.a4 quietOpts okPlatform
        [Ev.timeout, Ev.load, Ev.loadError "x", Ev.graceCleanup]).attached = true ∧
    (handlePrint (ContentRef.ref none) PrintType.a4 quietOpts okPlatform
        [Ev.timeout, Ev.load, Ev.loadError "x", Ev.graceCleanup]).removals = 0 := by
  decide

/-- Claim C3 counterexample: after the success path wins (load fires, print
succeeds, promise resolved), a load error arriving during the 1000ms grace
period still runs the onerror handler — the iframe is still attached and no
settled flag guards the branch — so the onError callback of a losing path
fires after the winner resolved. The final trace shows cbError after
resolvedWith. -/
theorem C3_late_onError_after_success :
    (handlePrint (ContentRef.elem sampleElem) PrintType.a4 raceOpts okPlatform
        [Ev.load, Ev.loadError "boom"]).trace =
      [TraceEv.iframeCreated, TraceEv.cbSuccess (successMsg PrintType.a4),
       TraceEv.resolvedWith (successResult PrintType.a4), TraceEv.iframeRemoved,
       TraceEv.cbError (iframeErrMsg "boom")] := by
  decide

/-- Platform with an obtainable staging surface whose print trigger throws. -/
def failPrintPlatform : Platform :=
  { startThrows := false, startErr := "", docAvailable := true
    windowAvailable := true, printOk := false, printErr := "denied" }

/-- Claim C3 as amended: at most one resolution ever takes effect (the first
resolve wins and all later resolve calls are no-ops), teardown is idempotent so
the iframe is removed at most once with no double-removal failure, and on the
staged path the race is inert after three of the four winners: after a timeout
winner, after a load-error winner, and after a print-trigger-error winner,
delivering any further events changes nothing; moreover after a success winner
the timer is cleared and stays cleared, so a later timeout event is a no-op
wherever it arrives. The only inertness the original claim asserted that fails
— forced by the counterexample — is that of a load error arriving during the
post-success grace period: it fires onError after the winner. -/
theorem C3_race_amended (cr : ContentRef) (ty : PrintType) (opts : PrintOptions)
    (pe : Platform) (e : Element) :
    (∀ s evts r, s.resolvedVal = some r →
      (List.foldl (step pe opts ty) s evts).resolvedVal = some r) ∧
    (∀ evts, (handlePrint cr ty opts pe evts).removals ≤ 1) ∧
    (resolveContent cr = .elem e → (opts.hasOnStart && pe.startThrows) = false →
      pe.docAvailable = true → pe.windowAvailable = true →
      (∀ rest, handlePrint cr ty opts pe (Ev.timeout :: rest) =
        handlePrint cr ty opts pe [Ev.timeout]) ∧
      (∀ er rest, handlePrint cr ty opts pe (Ev.loadError er :: rest) =
        handlePrint cr ty opts pe [Ev.loadError er]) ∧
      (pe.printOk = false → ∀ rest, handlePrint cr ty opts pe (Ev.load :: rest) =
        handlePrint cr ty opts pe [Ev.load]) ∧
      (pe.printOk = true → ∀ rest1 rest2,
        handlePrint cr ty opts pe (Ev.load :: (rest1 ++ Ev.timeout :: rest2)) =
          handlePrint cr ty opts pe (Ev.load :: (rest1 ++ rest2)))) := by
  refine ⟨?_, ?_, ?_⟩
  · intro s evts r h
    exact foldl_resolved_stable pe opts ty evts s r h
  · intro evts
    exact (rinv_foldl pe opts ty evts _ (rinv_phase1 cr ty opts pe)).2
  · intro he hs hd hw
    refine ⟨?_, ?_, ?_, ?_⟩
    · intro rest
      rw [handlePrint_timeout_first cr ty opts pe e rest he hs hd hw,
        handlePrint_timeout_first cr ty opts pe e [] he hs hd hw]
    · intro er rest
      rw [handlePrint_loadError_first cr ty opts pe e er rest he hs hd hw,
        handlePrint_loadError_first cr ty opts pe e er [] he hs hd hw]
    · intro hp rest
      rw [handlePrint_trigger_error_first cr ty opts pe e rest he hs hd hw hp,
        handlePrint_trigger_error_first cr ty opts pe e [] he hs hd hw hp]
    · intro hp rest1 rest2
      unfold handlePrint
      rw [phase1_staged cr ty opts pe e he hs hd hw, List.foldl_cons,
        List.foldl_cons, step_load_readyS pe opts ty e hp]
      exact foldl_timeout_noop pe opts ty rest1 rest2 _ rfl

theorem C3_race_amended_witness :
    handlePrint (ContentRef.elem sampleElem) PrintType.a4 quietOpts failPrintPlatform
        [Ev.load, Ev.timeout] =
      handlePrint (ContentRef.elem sampleElem) PrintType.a4 quietOpts failPrintPlatform
        [Ev.load] :=
  ((C3_race_amended (ContentRef.elem sampleElem) PrintType.a4 quietOpts
      failPrintPlatform sampleElem).2.2 rfl rfl rfl rfl).2.2.1 rfl [Ev.timeout]

/-- Claim C4 (code bug at this input): the claim says a ref holding no element
fails immediately with a resolved failure, no staging iframe, and a
synchronous onError call. On `ref none` the code instead passes validation
(the `||` fallback yields the truthy ref object), invokes onStart, creates the
iframe, and then rejects: the trace shows cbStart then iframeCreated with no
onError entry and no resolution. -/
theorem C4_null_current_ref_not_rejected_immediately :
    (handlePrint (ContentRef.ref none) PrintType.a4 loudOpts okPlatform []).trace =
      [TraceEv.cbStart, TraceEv.iframeCreated] ∧
    (handlePrint (ContentRef.ref none) PrintType.a4 loudOpts okPlatform []).resolvedVal = none ∧
    (handlePrint (ContentRef.ref none) PrintType.a4 loudOpts okPlatform []).rejected = true := by
  decide

/-- Claim C5: every resolution with success = false carries an error equal to
the message and the message is non-empty, over all inputs, platform behaviors
and event deliveries. -/
theorem C5_failure_results_have_error_eq_message (cr : ContentRef) (ty : PrintType)
    (opts : PrintOptions) (pe : Platform) (evts : List Ev) (r : PrintResult)
    (hr : (handlePrint cr ty opts pe evts).resolvedVal = some r)
    (hf : r.success = false) :
    r.error = some r.message ∧ r.message ≠ "" :=
  (goodS_handlePrint cr ty opts pe evts r hr).2 hf

theorem C5_failure_results_have_error_eq_message_witness :
    (errResult notFoundMsg).error = some (errResult notFoundMsg).message ∧
      (errResult notFoundMsg).message ≠ "" :=
  C5_failure_results_have_error_eq_message ContentRef.null PrintType.a4 quietOpts
    okPlatform [] (errResult notFoundMsg) (by decide) rfl

/-- Claim C6: when the timeout timer fires before any load signal on a fully
staged call, the promise resolves with success = false and a message embedding
the effective timeout value (caller-supplied, defaulting to 5000) in
milliseconds, and the staging iframe was removed before the resolution took
effect and is detached afterwards. -/
theorem C6_timeout_resolves_failure (cr : ContentRef) (ty : PrintType)
    (opts : PrintOptions) (pe : Platform) (e : Element) (rest : List Ev)
    (he : resolveContent cr = .elem e)
    (hs : (opts.hasOnStart && pe.startThrows) = false)
    (hd : pe.docAvailable = true) (hw : pe.windowAvailable = true) :
    (handlePrint cr ty opts pe (Ev.timeout :: rest)).resolvedVal =
        some (errResult (timeoutMsg (opts.timeout.getD 5000))) ∧
    (∃ a b, timeoutMsg (opts.timeout.getD 5000) =
        a ++ toString (opts.timeout.getD 5000) ++ b) ∧
    (handlePrint cr ty opts pe (Ev.timeout :: rest)).attached = false ∧
    (∃ pre suf, (handlePrint cr ty opts pe (Ev.timeout :: rest)).trace =
        pre ++ TraceEv.iframeRemoved :: suf ∧
      TraceEv.resolvedWith (errResult (timeoutMsg (opts.timeout.getD 5000))) ∈ suf) := by
  rw [handlePrint_timeout_first cr ty opts pe e rest he hs hd hw]
  refine ⟨rfl, ⟨"Timeout: Impressão não foi concluída em ", "ms", rfl⟩, rfl, ?_⟩
  refine ⟨startTrace opts ++ [TraceEv.iframeCreated],
    (if opts.hasOnError then [TraceEv.cbError (timeoutMsg (opts.timeout.getD 5000))] else []) ++
      [TraceEv.resolvedWith (errResult (timeoutMsg (opts.timeout.getD 5000)))], ?_, ?_⟩
  · simp [timeoutEndS]
  · simp

theorem C6_timeout_resolves_failure_witness :
    (handlePrint (ContentRef.elem sampleElem) PrintType.a4 quietOpts okPlatform
        [Ev.timeout]).resolvedVal = some (errResult (timeoutMsg 5000)) :=
  (C6_timeout_resolves_failure (ContentRef.elem sampleElem) PrintType.a4 quietOpts
      okPlatform sampleElem [] rfl rfl rfl rfl).1

/-- Claim C7: on a fully staged call in which the load signal fires first and
the print trigger succeeds, the promise resolves with success = true and a
message containing the uppercased format name. -/
theorem C7_success_message_contains_format (cr : ContentRef) (ty : PrintType)
    (opts : PrintOptions) (pe : Platform) (e : Element) (rest : List Ev)
    (he : resolveContent cr = .elem e)
    (hs : (opts.hasOnStart && pe.startThrows) = false)
    (hd : pe.docAvailable = true) (hw : pe.windowAvailable = true)
    (hp : pe.printOk = true) :
    (handlePrint cr ty opts pe (Ev.load :: rest)).resolvedVal =
        some (successResult ty) ∧
    (successResult ty).success = true ∧
    (∃ a b, (successResult ty).message =
      a ++ (match ty with | PrintType.a4 => "A4" | PrintType.thermal => "THERMAL") ++ b) := by
  refine ⟨?_, rfl, ?_⟩
  · unfold handlePrint
    rw [phase1_staged cr ty opts pe e he hs hd hw, List.foldl_cons,
      step_load_readyS pe opts ty e hp]
    exact foldl_resolved_stable pe opts ty rest _ _ rfl
  · cases ty
    · exact ⟨"Documento ", " enviado para impressão com sucesso!", by decide⟩
    · exact ⟨"Documento ", " enviado para impressão com sucesso!", by decide⟩

theorem C7_success_message_contains_format_witness :
    (handlePrint (ContentRef.elem sampleElem) PrintType.thermal quietOpts okPlatform
        [Ev.load]).resolvedVal = some (successResult PrintType.thermal) :=
  (C7_success_message_contains_format (ContentRef.elem sampleElem) PrintType.thermal
      quietOpts okPlatform sampleElem [] rfl rfl rfl rfl rfl).1

/-- Claim C8: for every call whose content reference resolves to an element,
the caller-owned original markup held by the host document is unchanged by
the whole run, and whatever is written into the staging document is built from
the deep copy of that original markup (and nothing else is ever staged). -/
theorem C8_original_never_mutated (cr : ContentRef) (ty : PrintType)
    (opts : PrintOptions) (pe : Platform) (evts : List Ev) (e : Element)
    (he : resolveContent cr = .elem e) :
    (handlePrint cr ty opts pe evts).origHTML = e.innerHTML ∧
      ((handlePrint cr ty opts pe evts).stagedDoc = none ∨
        (handlePrint cr ty opts pe evts).stagedDoc =
          some (pageHTML (printStyles ty) e.innerHTML)) := by
  unfold handlePrint
  rw [phase1_elem_eq cr ty opts pe e he]
  constructor
  · rw [foldl_origHTML]
    exact (afterValidate_frame ty opts pe e).1
  · rw [foldl_stagedDoc]
    exact (afterValidate_frame ty opts pe e).2

theorem C8_original_never_mutated_witness :
    (handlePrint (ContentRef.elem sampleElem) PrintType.a4 loudOpts okPlatform
        [Ev.load, Ev.graceCleanup]).origHTML = sampleElem.innerHTML :=
  (C8_original_never_mutated (ContentRef.elem sampleElem) PrintType.a4 loudOpts
      okPlatform [Ev.load, Ev.graceCleanup] sampleElem rfl).1

/-- Claim C9: across all resolutions the success flag is true exactly when the
error field is absent. -/
theorem C9_success_iff_error_absent (cr : ContentRef) (ty : PrintType)
    (opts : PrintOptions) (pe : Platform) (evts : List Ev) (r : PrintResult)
    (hr : (handlePrint cr ty opts pe evts).resolvedVal = some r) :
    r.success = true ↔ r.error = none := by
  have hg := goodS_handlePrint cr ty opts pe evts r hr
  constructor
  · exact hg.1
  · intro he
    by_contra hne
    have hf : r.success = false := by
      cases hsw : r.success
      · rfl
      · exact absurd hsw hne
    obtain ⟨h1, _⟩ := hg.2 hf
    rw [he] at h1
    cases h1

theorem C9_success_iff_error_absent_witness :
    (successResult PrintType.a4).success = true ↔
      (successResult PrintType.a4).error = none :=
  C9_success_iff_error_absent (ContentRef.elem sampleElem) PrintType.a4 quietOpts
    okPlatform [Ev.load] (successResult PrintType.a4) (by decide)

/-- Claim C10: on the content-not-found path the start callback is never
invoked while the error callback (when provided) fires, and on every run whose
trace contains an iframe creation with the start callback provided, the trace
begins with exactly one cbStart followed immediately by the creation, and no
further cbStart occurs. -/
theorem C10_onStart_only_after_validation (cr : ContentRef) (ty : PrintType)
    (opts : PrintOptions) (pe : Platform) (evts : List Ev) :
    (resolveContent cr = Resolved.noElem →
      (handlePrint cr ty opts pe evts).trace.count TraceEv.cbStart = 0 ∧
      (opts.hasOnError = true →
        (handlePrint cr ty opts pe evts).trace =
          [TraceEv.cbError notFoundMsg, TraceEv.resolvedWith (errResult notFoundMsg)])) ∧
    (TraceEv.iframeCreated ∈ (handlePrint cr ty opts pe evts).trace →
      opts.hasOnStart = true →
      ∃ suf, (handlePrint cr ty opts pe evts).trace =
        TraceEv.cbStart :: TraceEv.iframeCreated :: suf ∧
        suf.count TraceEv.cbStart = 0) := by
  constructor
  · intro he
    rw [handlePrint_noElem cr ty opts pe evts he]
    constructor
    · by_cases hOE : opts.hasOnError = true <;>
        simp [noElemEndS, initS, hOE, List.count_eq_zero]
    · intro hOE
      simp [noElemEndS, initS, hOE]
  · intro hin hOS
    cases hres : resolveContent cr with
    | noElem =>
      rw [handlePrint_noElem cr ty opts pe evts hres] at hin
      exfalso
      revert hin
      by_cases hOE : opts.hasOnError = true <;> simp [noElemEndS, initS, hOE]
    | elem e =>
      rw [handlePrint] at hin ⊢
      rw [phase1_elem_eq cr ty opts pe e hres] at hin ⊢
      exact onStart_before_created (Resolved.elem e) ty opts pe evts hOS hin
    | refSelf =>
      rw [handlePrint] at hin ⊢
      rw [phase1_refSelf_eq cr ty opts pe hres] at hin ⊢
      exact onStart_before_created Resolved.refSelf ty opts pe evts hOS hin

theorem C10_onStart_only_after_validation_witness :
    (handlePrint ContentRef.null PrintType.a4 loudOpts okPlatform []).trace.count
      TraceEv.cbStart = 0 :=
  ((C10_onStart_only_after_validation ContentRef.null PrintType.a4 loudOpts
      okPlatform []).1 rfl).1
